import Mathlib

/-!
Verification of the codeflex-ai crawler core: shallow embedding of the
rate limiter, robots gate, proxy pool, request function, batch scraper,
pagination walk, page-URL generator and deduplicator, with theorems about
the spec's claims.
-/

namespace Codeflex

/-- Entry of `ProxyManager.proxy_stats` (src/utils/proxy_manager.py):
per-proxy counters `requests`, `failures`, `last_used`, `response_time`
and the `active` flag. -/
structure ProxyEntry where
  requests : Nat
  failures : Nat
  lastUsed : ℚ
  responseTime : ℚ
  active : Bool
  deriving Repr, DecidableEq

/-- Body of `ProxyManager.mark_proxy_failed` for a proxy present in
`proxy_stats`: increment `failures`, then disable the entry when
`failures / max(1, requests) > 0.5 and requests > 5`. -/
def markFailedEntry (e : ProxyEntry) : ProxyEntry :=
  let e' := { e with failures := e.failures + 1 }
  let failureRate : ℚ := (e'.failures : ℚ) / (max 1 e'.requests : ℚ)
  if failureRate > 1/2 ∧ e'.requests > 5 then
    { e' with active := false }
  else
    e'

/-- Body of `ProxyManager.mark_proxy_success` for a present proxy:
overwrite `response_time`; nothing else changes. -/
def markSuccessEntry (e : ProxyEntry) (responseTime : ℚ) : ProxyEntry :=
  { e with responseTime := responseTime }

/-- Statistics update performed by `ProxyManager.get_proxy` on the chosen
proxy: `requests += 1`, `last_used = time.time()`. -/
def drawEntry (e : ProxyEntry) (now : ℚ) : ProxyEntry :=
  { e with requests := e.requests + 1, lastUsed := now }

/-- The fields of `ScrapingConfig` (src/config/settings.py) read by the
embedded functions. -/
structure ScrapingConfig where
  baseDelay : ℚ
  crawlDelay : Option ℚ
  respectRobotsTxt : Bool
  proxyRotation : Bool
  maxRetries : Nat

/-- Mutable state of `RateLimiter` (src/utils/rate_limiter.py):
`last_request_time` and `request_count`. -/
structure RateLimiterState where
  lastRequestTime : ℚ
  requestCount : Nat
  deriving Repr, DecidableEq

/-- The `min_delay` computed in `RateLimiter.wait_sync`: the configured
`base_delay`, raised to `config.crawl_delay` when that attribute is set and
truthy (`None` and `0.0` are falsy in Python). -/
def minDelay (cfg : ScrapingConfig) : ℚ :=
  match cfg.crawlDelay with
  | some d => if d ≠ 0 then max cfg.baseDelay d else cfg.baseDelay
  | none => cfg.baseDelay

/-- `RateLimiter.wait_sync`, with `time.time()` passed in as `now`: returns
the sleep performed and the updated state (`last_request_time` is re-read
after the sleep, so it becomes `now + sleep`); `request_count` increments. -/
def waitSync (cfg : ScrapingConfig) (st : RateLimiterState) (now : ℚ) :
    ℚ × RateLimiterState :=
  let timeSinceLast := now - st.lastRequestTime
  let md := minDelay cfg
  let sleepTime := if timeSinceLast < md then md - timeSinceLast else 0
  (sleepTime, ⟨now + sleepTime, st.requestCount + 1⟩)

/-- A parsed robots.txt (`urllib.robotparser.RobotFileParser`) as consumed
by the code: a `can_fetch('*', url)` predicate and a `crawl_delay('*')`
value. External library behaviour, kept abstract as data. -/
structure RobotsParser where
  canFetchFn : String → Bool
  crawlDelayVal : Option ℚ

/-- `BaseScraper._robots_cache`: domain string to cached parser; a `none`
value records a failed robots fetch (the code stores `None`). -/
abbrev RobotsCache := List (String × Option RobotsParser)

/-- Result of `BaseScraper._get_robots_parser`: the parser (or `none`),
the updated cache, and whether a network fetch of robots.txt happened. -/
structure RobotsLookup where
  parser : Option RobotsParser
  cache : RobotsCache
  didFetch : Bool

/-- `BaseScraper._get_robots_parser`. `parseDomain` models the
`urlparse`-based `f"{scheme}://{netloc}"` computation; `robotsFetch` models
`rp.read()`, yielding `none` when it raises (the code then caches `None`).
Cached domains are never re-fetched. -/
def getRobotsParser (cfg : ScrapingConfig) (parseDomain : String → String)
    (robotsFetch : String → Option RobotsParser) (url : String)
    (cache : RobotsCache) : RobotsLookup :=
  if cfg.respectRobotsTxt = false then ⟨none, cache, false⟩
  else
    let domain := parseDomain url
    match cache.lookup domain with
    | some entry => ⟨entry, cache, false⟩
    | none =>
      let fetched := robotsFetch domain
      ⟨fetched, (domain, fetched) :: cache, true⟩

/-- `BaseScraper._can_fetch` (agent `'*'`): a missing parser (robots
disabled or fetch failed) authorizes the URL. Returns the updated cache. -/
def canFetchM (cfg : ScrapingConfig) (parseDomain : String → String)
    (robotsFetch : String → Option RobotsParser) (url : String)
    (cache : RobotsCache) : Bool × RobotsCache :=
  let lk := getRobotsParser cfg parseDomain robotsFetch url cache
  match lk.parser with
  | none => (true, lk.cache)
  | some rp => (rp.canFetchFn url, lk.cache)

/-- `BaseScraper._get_crawl_delay` (agent `'*'`): `none` when no parser is
available. Returns the updated cache. -/
def getCrawlDelayM (cfg : ScrapingConfig) (parseDomain : String → String)
    (robotsFetch : String → Option RobotsParser) (url : String)
    (cache : RobotsCache) : Option ℚ × RobotsCache :=
  let lk := getRobotsParser cfg parseDomain robotsFetch url cache
  match lk.parser with
  | none => (none, lk.cache)
  | some rp => (rp.crawlDelayVal, lk.cache)

/-- State of `ProxyManager` (src/utils/proxy_manager.py): the proxy list,
the round-robin cursor, and the per-proxy stats map. Every proxy in
`proxies` has a stats entry (maintained by `__init__`/`add`/`remove`). -/
structure ProxyManagerState where
  proxies : List String
  currentProxyIndex : Nat
  stats : List (String × ProxyEntry)
  deriving Repr, DecidableEq

/-- Pointwise update of one proxy's stats entry. -/
def updateStats (stats : List (String × ProxyEntry)) (p : String)
    (f : ProxyEntry → ProxyEntry) : List (String × ProxyEntry) :=
  stats.map fun kv => if kv.1 = p then (kv.1, f kv.2) else kv

/-- `ProxyManager.get_proxy`. In rotation mode the code indexes the active
sublist by `current_proxy_index % len(active)` and then increments the
cursor; in random mode `random.choice` is modelled by the externally
supplied index `randIdx` taken modulo the active count. The chosen proxy's
`requests`/`last_used` are bumped. -/
def getProxy (rotation : Bool) (randIdx : Nat) (now : ℚ)
    (pm : ProxyManagerState) : Option String × ProxyManagerState :=
  if pm.proxies = [] then (none, pm)
  else
    let active := pm.proxies.filter fun p =>
      ((pm.stats.lookup p).map ProxyEntry.active).getD false
    if active = [] then (none, pm)
    else
      if rotation then
        let proxy := active.getD (pm.currentProxyIndex % active.length) ""
        (some proxy,
         { pm with currentProxyIndex := pm.currentProxyIndex + 1,
                   stats := updateStats pm.stats proxy (drawEntry · now) })
      else
        let proxy := active.getD (randIdx % active.length) ""
        (some proxy,
         { pm with stats := updateStats pm.stats proxy (drawEntry · now) })

/-- Result of the external `session.request` call: an HTTP response with a
status code and body, or a raised exception (network error / timeout). -/
inductive FetchOutcome where
  | resp (statusCode : Nat) (body : String)
  | exn

/-- The mutable state touched by `BaseScraper._make_request_sync`: rate
limiter, optional proxy manager (`None` when `use_proxies` is off), robots
cache, and the `stats` counters. -/
structure ScraperState where
  rate : RateLimiterState
  proxy : Option ProxyManagerState
  robotsCache : RobotsCache
  requestsMade : Nat
  successfulRequests : Nat
  failedRequests : Nat

/-- Observables of one `_make_request_sync` call: the returned response
(`None` on denial, non-200 or exception), the state after the call, the
number of `session.request` invocations, the sleep the rate limiter
performed, and the proxy drawn (if any). -/
structure RequestTrace where
  result : Option (Nat × String)
  state : ScraperState
  fetchCalls : Nat
  waitPerformed : ℚ
  usedProxy : Option String

/-- `BaseScraper._make_request_sync`: robots check (early return on deny),
then `rate_limiter.wait_sync()`, then one proxy draw if a proxy manager
exists, then `stats['requests_made'] += 1` and a single
`session.request` call; status 200 returns the response, any other status
or a raised exception returns `None`. -/
def makeRequestSync (cfg : ScrapingConfig) (parseDomain : String → String)
    (robotsFetch : String → Option RobotsParser)
    (fetch : String → Option String → FetchOutcome) (randIdx : Nat)
    (now : ℚ) (url : String) (st : ScraperState) : RequestTrace :=
  let cf := canFetchM cfg parseDomain robotsFetch url st.robotsCache
  if cf.1 = false then
    { result := none, state := { st with robotsCache := cf.2 },
      fetchCalls := 0, waitPerformed := 0, usedProxy := none }
  else
    let sr := waitSync cfg st.rate now
    let pd : Option String × Option ProxyManagerState :=
      match st.proxy with
      | none => (none, none)
      | some pm =>
        let gp := getProxy cfg.proxyRotation randIdx (now + sr.1) pm
        (gp.1, some gp.2)
    let st1 : ScraperState :=
      { st with robotsCache := cf.2, rate := sr.2, proxy := pd.2,
                requestsMade := st.requestsMade + 1 }
    match fetch url pd.1 with
    | .resp 200 body =>
        { result := some (200, body),
          state := { st1 with successfulRequests := st1.successfulRequests + 1 },
          fetchCalls := 1, waitPerformed := sr.1, usedProxy := pd.1 }
    | .resp _ _ =>
        { result := none,
          state := { st1 with failedRequests := st1.failedRequests + 1 },
          fetchCalls := 1, waitPerformed := sr.1, usedProxy := pd.1 }
    | .exn =>
        { result := none,
          state := { st1 with failedRequests := st1.failedRequests + 1 },
          fetchCalls := 1, waitPerformed := sr.1, usedProxy := pd.1 }

/-- A scraped record as fed to `DataProcessor.calculate_hash`: a dict with
string keys and (for this development) string values, carried as an
association list in insertion order. -/
abbrev Record := List (String × String)

/-- JSON rendering of one string (escaping elided; injectivity of the
rendering is not relied on by any theorem). -/
def jsonStr (s : String) : String := "\"" ++ s ++ "\""

/-- Key order used by `json.dumps(..., sort_keys=True)`. -/
def keyLe (a b : String × String) : Prop := a.1 ≤ b.1

instance : DecidableRel keyLe := fun a b =>
  inferInstanceAs (Decidable (a.1 ≤ b.1))

/-- `json.dumps(data, sort_keys=True)` for a flat dict: serialize the
items sorted by key. -/
def dumpsSorted (r : Record) : String :=
  "\x7b" ++ String.intercalate ", "
    ((List.insertionSort keyLe r).map fun kv =>
      jsonStr kv.1 ++ ": " ++ jsonStr kv.2) ++ "\x7d"

/-- `DataProcessor.calculate_hash` on a dict: the md5 hex digest of the
canonical serialization. md5 is an external deterministic function of its
input string, abstracted as the parameter `md5`. -/
def calculateHash (md5 : String → String) (r : Record) : String :=
  md5 (dumpsSorted r)

/-- State of `DataProcessor` duplicate detection: `seen_hashes` (a set,
carried as a list) and `duplicate_count`. -/
structure DedupState where
  seenHashes : List String
  duplicateCount : Nat
  deriving Repr, DecidableEq

/-- `DataProcessor.is_duplicate`: hash the record; a seen hash bumps
`duplicate_count` and returns `true`, an unseen one is added to
`seen_hashes` and returns `false`. -/
def isDuplicate (md5 : String → String) (r : Record) (st : DedupState) :
    Bool × DedupState :=
  let h := calculateHash md5 r
  if h ∈ st.seenHashes then
    (true, { st with duplicateCount := st.duplicateCount + 1 })
  else
    (false, { st with seenHashes := h :: st.seenHashes })

/-- State of `WebScraper` (src/scrapers/web_scraper.py) touched by the
batch path: `results`, `errors` and the `DataProcessor` dedup state. -/
structure WebScraperState where
  results : List Record
  errors : List (String × String)
  dedup : DedupState
  deriving Repr, DecidableEq

/-- `WebScraper.scrape_single_url_async`, with the whole fetch/extract
pipeline abstracted as `scrape : url to Option Record` (`none` covers both
a failed request and a raised exception, which the method catches). A
successful record is appended to `results` unless it is a duplicate, and
returned either way; a failure appends to `errors` and returns `None`. -/
def scrapeSingleUrl (md5 : String → String) (scrape : String → Option Record)
    (url : String) (st : WebScraperState) :
    Option Record × WebScraperState :=
  match scrape url with
  | some r =>
    let d := isDuplicate md5 r st.dedup
    if d.1 then
      (some r, { st with dedup := d.2 })
    else
      (some r, { st with results := st.results ++ [r], dedup := d.2 })
  | none =>
    (none, { st with errors := st.errors ++ [(url, "No result returned")] })

/-- The `asyncio.gather` stage of `WebScraper.scrape_multiple_urls_async`:
one result slot per input URL, in input order (the semaphore bounds
concurrency but `gather` preserves order; state updates are serialized
here). -/
def gatherScrapes (md5 : String → String) (scrape : String → Option Record)
    (urls : List String) (st : WebScraperState) :
    List (Option Record) × WebScraperState :=
  match urls with
  | [] => ([], st)
  | u :: rest =>
    let r := scrapeSingleUrl md5 scrape u st
    let g := gatherScrapes md5 scrape rest r.2
    (r.1 :: g.1, g.2)

/-- `WebScraper.scrape_multiple_urls_async`: gather all per-URL results,
then keep only those that are dicts (`valid_results`); `None` slots from
failed URLs are dropped from the returned list. -/
def scrapeMultipleUrls (md5 : String → String)
    (scrape : String → Option Record) (urls : List String)
    (st : WebScraperState) : List Record × WebScraperState :=
  let g := gatherScrapes md5 scrape urls st
  (g.1.filterMap id, g.2)

/-- The `while` guard of `WebScraper.scrape_with_pagination` restricted to
the page budget: `not max_pages or page_count < max_pages` (`None` and `0`
are falsy). -/
def mpCond (mp : Option Nat) (pageCount : Nat) : Bool :=
  match mp with
  | none => true
  | some m => if m = 0 then true else decide (pageCount < m)

/-- Loop body of `WebScraper.scrape_with_pagination`, fuelled. `scrape`
abstracts `scrape_single_url` succeeding on a URL; `nextOf` abstracts
re-fetching the page and `PaginationHandler.get_next_page_url` on its
soup (`none`: no next link, or the soup re-fetch failed — both `break`).
The walk continues only when `next_url` is truthy and differs from
`current_url`; there is no visited set. Returns the list of successfully
scraped page URLs in visitation order, or `none` if `fuel` iterations did
not finish the loop. -/
def paginateLoop (scrape : String → Bool) (nextOf : String → Option String)
    (mp : Option Nat) (cur : String) (pageCount : Nat) (fuel : Nat) :
    Option (List String) :=
  match fuel with
  | 0 => none
  | fuel + 1 =>
    if cur ≠ "" ∧ mpCond mp pageCount = true then
      if scrape cur then
        match nextOf cur with
        | some nxt =>
          if nxt ≠ "" ∧ nxt ≠ cur then
            (paginateLoop scrape nextOf mp nxt (pageCount + 1) fuel).map
              (cur :: ·)
          else some [cur]
        | none => some [cur]
      else some []
    else some []

/-- `WebScraper.scrape_with_pagination` from a seed URL (page budget
`mp`), fuelled. -/
def scrapeWithPagination (scrape : String → Bool)
    (nextOf : String → Option String) (mp : Option Nat) (startUrl : String)
    (fuel : Nat) : Option (List String) :=
  paginateLoop scrape nextOf mp startUrl 0 fuel

/-- The URL built in one iteration of
`PaginationHandler.generate_page_urls`: the base URL with the query
parameter `pageParam` set to `page`. The `urlparse`/`urlencode`/
`urlunparse` reconstruction is abstracted to a rendering that carries the
page number, which is all the claims depend on. -/
def mkPageUrl (baseUrl pageParam : String) (page : Int) : String :=
  baseUrl ++ "?" ++ pageParam ++ "=" ++ toString page

/-- The `while True` loop of `PaginationHandler.generate_page_urls`,
fuelled: break when `max_pages and page > start_page + max_pages - 1`
(`None` and `0` falsy), else append the page URL and increment `page`.
`none` means the loop did not finish within `fuel` iterations. -/
def genLoop (baseUrl pageParam : String) (mp : Option Int)
    (startPage : Int) (page : Int) (fuel : Nat) : Option (List String) :=
  match fuel with
  | 0 => none
  | fuel + 1 =>
    let brk : Bool :=
      match mp with
      | none => false
      | some m => if m = 0 then false else decide (page > startPage + m - 1)
    if brk then some []
    else
      (genLoop baseUrl pageParam mp startPage (page + 1) fuel).map
        (mkPageUrl baseUrl pageParam page :: ·)

/-- `PaginationHandler.generate_page_urls` (fuelled). -/
def generatePageUrls (baseUrl pageParam : String) (startPage : Int)
    (mp : Option Int) (fuel : Nat) : Option (List String) :=
  genLoop baseUrl pageParam mp startPage startPage fuel

/-! ## Helper lemmas -/

lemma max_one_cast_of_gt_five {r : Nat} (hr : r > 5) :
    max (1 : ℚ) (r : ℚ) = (r : ℚ) := by
  have : (1 : ℚ) ≤ (r : ℚ) := by
    exact_mod_cast Nat.one_le_iff_ne_zero.mpr (by omega)
  exact max_eq_right this

lemma markFailedEntry_active_iff (e : ProxyEntry) :
    (markFailedEntry e).active = false ↔
      (e.active = false ∨
        ((e.failures + 1 : ℚ) / (e.requests : ℚ) > 1/2 ∧ e.requests > 5)) := by
  simp only [markFailedEntry]
  split
  · rename_i h
    have hrate : (e.failures + 1 : ℚ) / (e.requests : ℚ) > 1/2 := by
      have h1 := h.1
      rwa [max_one_cast_of_gt_five h.2, Nat.cast_add, Nat.cast_one] at h1
    simp only [true_iff]
    exact Or.inr ⟨hrate, h.2⟩
  · rename_i h
    have hnot : ¬((e.failures + 1 : ℚ) / (e.requests : ℚ) > 1/2 ∧
        e.requests > 5) := by
      rintro ⟨hgt, hr⟩
      exact h ⟨by rw [max_one_cast_of_gt_five hr]; push_cast; exact hgt, hr⟩
    simp only [hnot, or_false]

/-- Strict key order on record items; sorted nodup-key lists are unique
with respect to it. -/
def keyLt (a b : String × String) : Prop := a.1 < b.1

instance : IsTotal (String × String) keyLe := ⟨fun a b => le_total a.1 b.1⟩

instance : IsTrans (String × String) keyLe :=
  ⟨fun _ _ _ h1 h2 => le_trans h1 h2⟩

instance : IsAntisymm (String × String) keyLt :=
  ⟨fun _ _ h1 h2 => absurd (lt_trans h1 h2) (lt_irrefl _)⟩

lemma sorted_keyLt (l : Record) (hs : List.Sorted keyLe l)
    (hn : (l.map Prod.fst).Nodup) : List.Sorted keyLt l := by
  rw [List.Nodup, List.pairwise_map] at hn
  exact (hs.and hn).imp fun h => lt_of_le_of_ne h.1 h.2

lemma insertionSort_eq_of_perm (r1 r2 : Record) (hp : r1.Perm r2)
    (hn : (r1.map Prod.fst).Nodup) :
    List.insertionSort keyLe r1 = List.insertionSort keyLe r2 := by
  have p1 := List.perm_insertionSort keyLe r1
  have p2 := List.perm_insertionSort keyLe r2
  have hps : (List.insertionSort keyLe r1).Perm
      (List.insertionSort keyLe r2) := p1.trans (hp.trans p2.symm)
  have hn1 : ((List.insertionSort keyLe r1).map Prod.fst).Nodup :=
    ((p1.map Prod.fst).nodup_iff).mpr hn
  have hn2 : ((List.insertionSort keyLe r2).map Prod.fst).Nodup :=
    ((p2.map Prod.fst).nodup_iff).mpr (((hp.map Prod.fst).nodup_iff).mp hn)
  exact List.eq_of_perm_of_sorted hps
    (sorted_keyLt _ (List.sorted_insertionSort keyLe r1) hn1)
    (sorted_keyLt _ (List.sorted_insertionSort keyLe r2) hn2)

lemma genLoop_falsy (b p : String) (s : Int) (mp : Option Int)
    (hmp : mp = none ∨ mp = some 0) :
    ∀ (fuel : Nat) (page : Int), genLoop b p mp s page fuel = none := by
  rcases hmp with h | h <;> subst h
  all_goals
    intro fuel
    induction fuel with
    | zero => intro page; rfl
    | succ n ih => intro page; simp [genLoop, ih]

lemma genLoop_pos (b p : String) (s m : Int) (hm : 0 < m) :
    ∀ (n : Nat) (page : Int) (fuel : Nat), n + 1 ≤ fuel →
      page = s + m - n → (n : Int) ≤ m →
      genLoop b p (some m) s page fuel =
        some ((List.range n).map fun i : Nat =>
          mkPageUrl b p (page + (i : Int))) := by
  intro n
  induction n with
  | zero =>
    intro page fuel hfuel hpage _
    obtain ⟨f, rfl⟩ : ∃ f, fuel = f + 1 := ⟨fuel - 1, by omega⟩
    have hbrk : (if m = 0 then false else decide (page > s + m - 1)) = true := by
      rw [if_neg (by omega)]
      simp only [decide_eq_true_eq]
      omega
    simp [genLoop, hbrk]
  | succ k ih =>
    intro page fuel hfuel hpage hk
    obtain ⟨f, rfl⟩ : ∃ f, fuel = f + 1 := ⟨fuel - 1, by omega⟩
    have hbrk : (if m = 0 then false else decide (page > s + m - 1)) = false := by
      rw [if_neg (by omega)]
      simp only [decide_eq_false_iff_not, not_lt]
      push_cast at hpage
      omega
    have hrec := ih (page + 1) f (by omega)
      (by push_cast at hpage ⊢; omega) (by push_cast at hk ⊢; omega)
    simp only [genLoop, hbrk, Bool.false_eq_true, if_false, hrec,
      Option.map_some']
    congr 1
    rw [List.range_succ_eq_map, List.map_cons, List.map_map]
    congr 1
    · congr 1
      norm_num
    · apply List.map_congr_left
      intro a ha
      simp only [Function.comp_apply]
      congr 1
      push_cast
      ring

lemma lookup_updateStats {α : Type} (stats : List (String × ProxyEntry))
    (p q : String) (f : ProxyEntry → ProxyEntry) (g : ProxyEntry → α)
    (hg : ∀ e, g (f e) = g e) :
    ((updateStats stats p f).lookup q).map g = (stats.lookup q).map g := by
  induction stats with
  | nil => rfl
  | cons kv rest ih =>
    obtain ⟨k, v⟩ := kv
    simp only [updateStats, List.map_cons] at ih ⊢
    by_cases hk : k = p
    · subst hk
      rw [if_pos rfl]
      by_cases hq : q = k
      · subst hq
        simp [List.lookup_cons, hg]
      · simp [List.lookup_cons, beq_false_of_ne hq, ih]
    · rw [if_neg hk]
      by_cases hq : q = k
      · subst hq
        simp [List.lookup_cons]
      · simp [List.lookup_cons, beq_false_of_ne hq, ih]

lemma getProxy_lookup_map {α : Type} (rotation : Bool) (randIdx : Nat)
    (now : ℚ) (pm : ProxyManagerState) (q : String) (g : ProxyEntry → α)
    (hg : ∀ e, g (drawEntry e now) = g e) :
    (((getProxy rotation randIdx now pm).2).stats.lookup q).map g =
      (pm.stats.lookup q).map g := by
  simp only [getProxy]
  split_ifs <;> simp [lookup_updateStats _ _ _ _ g hg]

/-- The `failures` counter of pool entry `p`, observed through the
optional proxy manager. -/
def poolFailures (ps : Option ProxyManagerState) (p : String) :
    Option (Option Nat) :=
  ps.map fun pm => (pm.stats.lookup p).map ProxyEntry.failures

/-- The `response_time` of pool entry `p`, observed through the optional
proxy manager. -/
def poolResponseTime (ps : Option ProxyManagerState) (p : String) :
    Option (Option ℚ) :=
  ps.map fun pm => (pm.stats.lookup p).map ProxyEntry.responseTime

lemma waitSync_fst (cfg : ScrapingConfig) (st : RateLimiterState)
    (now : ℚ) :
    (waitSync cfg st now).1 =
      if now - st.lastRequestTime < minDelay cfg then
        minDelay cfg - (now - st.lastRequestTime) else 0 := rfl

lemma waitSync_last (cfg : ScrapingConfig) (st : RateLimiterState)
    (now : ℚ) :
    (waitSync cfg st now).2.lastRequestTime =
      now + (waitSync cfg st now).1 := rfl

lemma waitSync_spacing (cfg : ScrapingConfig) (st2 : RateLimiterState)
    (now2 : ℚ) :
    minDelay cfg ≤
      (waitSync cfg st2 now2).2.lastRequestTime - st2.lastRequestTime := by
  rw [waitSync_last, waitSync_fst]
  split_ifs <;> linarith

lemma scrapeSingleUrl_fst (md5 : String → String)
    (scrape : String → Option Record) (url : String)
    (st : WebScraperState) :
    (scrapeSingleUrl md5 scrape url st).1 = scrape url := by
  unfold scrapeSingleUrl
  rcases scrape url with _ | r
  · rfl
  · dsimp only
    split_ifs <;> rfl

lemma scrapeSingleUrl_errors_some (md5 : String → String)
    (scrape : String → Option Record) (url : String) (st : WebScraperState)
    (r : Record) (h : scrape url = some r) :
    (scrapeSingleUrl md5 scrape url st).2.errors = st.errors := by
  unfold scrapeSingleUrl
  rw [h]
  dsimp only
  split_ifs <;> rfl

lemma scrapeSingleUrl_errors_none (md5 : String → String)
    (scrape : String → Option Record) (url : String) (st : WebScraperState)
    (h : scrape url = none) :
    (scrapeSingleUrl md5 scrape url st).2.errors =
      st.errors ++ [(url, "No result returned")] := by
  unfold scrapeSingleUrl
  rw [h]

lemma gatherScrapes_cons (md5 : String → String)
    (scrape : String → Option Record) (u : String) (rest : List String)
    (st : WebScraperState) :
    gatherScrapes md5 scrape (u :: rest) st =
      ((scrapeSingleUrl md5 scrape u st).1 ::
        (gatherScrapes md5 scrape rest
          (scrapeSingleUrl md5 scrape u st).2).1,
       (gatherScrapes md5 scrape rest
          (scrapeSingleUrl md5 scrape u st).2).2) := rfl

/-! ## Claim theorems -/

/-- Claim C3: a proxy entry is disabled by a failure report exactly when
its post-report failure count divided by its request count exceeds 0.5 and
its request count exceeds 5 (both required); success reports and proxy
draws never change `active`; concretely, an entry with `requests = 10`
becomes inactive on the sixth failure report but not on the fifth, and an
entry with `requests = 4` is still active after four failure reports. -/
theorem C3_proxy_disable_policy :
    (∀ e : ProxyEntry,
      ((markFailedEntry e).active = false ↔
        (e.active = false ∨
          ((e.failures + 1 : ℚ) / (e.requests : ℚ) > 1/2 ∧ e.requests > 5)))) ∧
    (∀ (e : ProxyEntry) (t : ℚ), (markSuccessEntry e t).active = e.active) ∧
    (∀ (e : ProxyEntry) (t : ℚ), (drawEntry e t).active = e.active) ∧
    (markFailedEntry (markFailedEntry (markFailedEntry (markFailedEntry
      (markFailedEntry (markFailedEntry
        ⟨10, 0, 0, 0, true⟩)))))).active = false ∧
    (markFailedEntry (markFailedEntry (markFailedEntry (markFailedEntry
      (markFailedEntry ⟨10, 0, 0, 0, true⟩))))).active = true ∧
    (markFailedEntry (markFailedEntry (markFailedEntry
      (markFailedEntry ⟨4, 0, 0, 0, true⟩)))).active = true := by
  refine ⟨markFailedEntry_active_iff, fun e t => rfl, fun e t => rfl,
    ?_, ?_, ?_⟩
  · norm_num [markFailedEntry]
  · norm_num [markFailedEntry]
  · norm_num [markFailedEntry]

/-- Claim C10: `generate_page_urls` terminates only for a truthy
`max_pages`: with `max_pages = None` or `0` its loop never finishes under
any amount of fuel, while a positive `max_pages = m` yields (with enough
fuel) exactly `m` URLs carrying page numbers `start_page` through
`start_page + m - 1` in increasing order. -/
theorem C10_generate_page_urls :
    (∀ (b p : String) (s page : Int) (fuel : Nat),
        genLoop b p none s page fuel = none) ∧
    (∀ (b p : String) (s page : Int) (fuel : Nat),
        genLoop b p (some 0) s page fuel = none) ∧
    (∀ (b p : String) (s m : Int) (fuel : Nat), 0 < m →
        m.toNat + 1 ≤ fuel →
        generatePageUrls b p s (some m) fuel =
          some ((List.range m.toNat).map fun i : Nat =>
            mkPageUrl b p (s + (i : Int)))) := by
  refine ⟨fun b p s page fuel =>
      genLoop_falsy b p s none (Or.inl rfl) fuel page,
    fun b p s page fuel =>
      genLoop_falsy b p s (some 0) (Or.inr rfl) fuel page,
    fun b p s m fuel hm hfuel => ?_⟩
  have h := genLoop_pos b p s m hm m.toNat s fuel hfuel ?_ ?_
  · exact h
  · rw [Int.toNat_of_nonneg hm.le]
    ring
  · rw [Int.toNat_of_nonneg hm.le]

/-- Witness for C10: `start_page = 1`, `max_pages = 2`, fuel 3 yields the
two page URLs for pages 1 and 2. -/
theorem C10_generate_page_urls_witness :
    generatePageUrls "http://e/a" "page" 1 (some 2) 3 =
      some ((List.range (2:Int).toNat).map fun i : Nat =>
        mkPageUrl "http://e/a" "page" (1 + (i : Int))) :=
  C10_generate_page_urls.2.2 "http://e/a" "page" 1 2 3 (by norm_num)
    (by decide)

/-- Claim C9: the fingerprint is a stable hash of the key-order-normalized
serialization, so two records equal as maps (same items, possibly in a
different insertion order) fingerprint identically; and admission is
idempotent: a record not yet seen is reported as new on first admission
and as a duplicate on the second and every later identical admission. -/
theorem C9_fingerprint_dedup :
    (∀ (md5 : String → String) (r1 r2 : Record), r1.Perm r2 →
        (r1.map Prod.fst).Nodup →
        calculateHash md5 r1 = calculateHash md5 r2) ∧
    (∀ (md5 : String → String) (r : Record) (st : DedupState),
        calculateHash md5 r ∉ st.seenHashes →
        (isDuplicate md5 r st).1 = false ∧
        (isDuplicate md5 r (isDuplicate md5 r st).2).1 = true ∧
        (isDuplicate md5 r (isDuplicate md5 r
          (isDuplicate md5 r st).2).2).1 = true) := by
  constructor
  · intro md5 r1 r2 hp hn
    unfold calculateHash dumpsSorted
    rw [insertionSort_eq_of_perm r1 r2 hp hn]
  · intro md5 r st hmem
    simp only [isDuplicate, if_neg hmem]
    have hmem2 : calculateHash md5 r ∈
        calculateHash md5 r :: st.seenHashes := List.mem_cons_self _ _
    simp only [if_pos hmem2]
    simp

/-- Witness for C9: two concrete two-field records equal as maps but with
swapped insertion order fingerprint identically, and a fresh record is new
then duplicate then duplicate. -/
theorem C9_fingerprint_dedup_witness :
    calculateHash id [("a", "1"), ("b", "2")] =
      calculateHash id [("b", "2"), ("a", "1")] ∧
    ((isDuplicate id [("a", "1")] ⟨[], 0⟩).1 = false ∧
     (isDuplicate id [("a", "1")]
       (isDuplicate id [("a", "1")] ⟨[], 0⟩).2).1 = true ∧
     (isDuplicate id [("a", "1")] (isDuplicate id [("a", "1")]
       (isDuplicate id [("a", "1")] ⟨[], 0⟩).2).2).1 = true) :=
  ⟨C9_fingerprint_dedup.1 id [("a", "1"), ("b", "2")]
      [("b", "2"), ("a", "1")] (by decide) (by decide),
   C9_fingerprint_dedup.2 id [("a", "1")] ⟨[], 0⟩ (List.not_mem_nil _)⟩

/-- Claim C6: when fetching a host's robots.txt fails, a permissive ruling
is cached: the triggering URL is authorized, no crawl delay is reported,
the failure is cached under the host's domain, and any later lookup for a
URL of the same host performs no re-fetch, is authorized, reports no crawl
delay and leaves the cache unchanged. -/
theorem C6_robots_fail_open (cfg : ScrapingConfig)
    (parseDomain : String → String)
    (robotsFetch : String → Option RobotsParser) (url : String)
    (cache : RobotsCache)
    (hr : cfg.respectRobotsTxt = true)
    (hmiss : cache.lookup (parseDomain url) = none)
    (hfail : robotsFetch (parseDomain url) = none) :
    (canFetchM cfg parseDomain robotsFetch url cache).1 = true ∧
    (getCrawlDelayM cfg parseDomain robotsFetch url cache).1 = none ∧
    (getRobotsParser cfg parseDomain robotsFetch url cache).didFetch = true ∧
    (getRobotsParser cfg parseDomain robotsFetch url cache).cache =
      ((parseDomain url, none) :: cache) ∧
    (∀ url2 : String, parseDomain url2 = parseDomain url →
      (getRobotsParser cfg parseDomain robotsFetch url2
        ((getRobotsParser cfg parseDomain robotsFetch url cache).cache)).didFetch
        = false ∧
      (canFetchM cfg parseDomain robotsFetch url2
        ((getRobotsParser cfg parseDomain robotsFetch url cache).cache)).1
        = true ∧
      (getCrawlDelayM cfg parseDomain robotsFetch url2
        ((getRobotsParser cfg parseDomain robotsFetch url cache).cache)).1
        = none ∧
      (getRobotsParser cfg parseDomain robotsFetch url2
        ((getRobotsParser cfg parseDomain robotsFetch url cache).cache)).cache
        = (getRobotsParser cfg parseDomain robotsFetch url cache).cache) := by
  have hbase : getRobotsParser cfg parseDomain robotsFetch url cache =
      ⟨none, (parseDomain url, none) :: cache, true⟩ := by
    simp [getRobotsParser, hr, hmiss, hfail]
  refine ⟨?_, ?_, ?_, ?_, ?_⟩
  · simp [canFetchM, hbase]
  · simp [getCrawlDelayM, hbase]
  · simp [hbase]
  · simp [hbase]
  · intro url2 h2
    have hhit : getRobotsParser cfg parseDomain robotsFetch url2
        ((parseDomain url, none) :: cache) =
          ⟨none, (parseDomain url, none) :: cache, false⟩ := by
      simp [getRobotsParser, hr, h2, List.lookup]
    rw [hbase]
    exact ⟨by simp [hhit], by simp [canFetchM, hhit],
      by simp [getCrawlDelayM, hhit], by simp [hhit]⟩

/-- Witness for C6: a host whose robots fetch fails authorizes both the
first URL and a second URL of the same host, reports no crawl delay, and
the second lookup does not re-fetch. -/
theorem C6_robots_fail_open_witness :
    (canFetchM ⟨1, none, true, true, 3⟩ (fun _ => "http://h")
      (fun _ => none) "http://h/x" []).1 = true ∧
    (getCrawlDelayM ⟨1, none, true, true, 3⟩ (fun _ => "http://h")
      (fun _ => none) "http://h/x" []).1 = none ∧
    (canFetchM ⟨1, none, true, true, 3⟩ (fun _ => "http://h")
      (fun _ => none) "http://h/y"
      ((getRobotsParser ⟨1, none, true, true, 3⟩ (fun _ => "http://h")
        (fun _ => none) "http://h/x" []).cache)).1 = true ∧
    (getRobotsParser ⟨1, none, true, true, 3⟩ (fun _ => "http://h")
      (fun _ => none) "http://h/y"
      ((getRobotsParser ⟨1, none, true, true, 3⟩ (fun _ => "http://h")
        (fun _ => none) "http://h/x" []).cache)).didFetch = false := by
  have h := C6_robots_fail_open ⟨1, none, true, true, 3⟩
    (fun _ => "http://h") (fun _ => none) "http://h/x" [] rfl rfl rfl
  exact ⟨h.1, h.2.1, (h.2.2.2.2 "http://h/y" rfl).2.1,
    (h.2.2.2.2 "http://h/y" rfl).1⟩

/-- Claim C8: a URL denied by the robots check triggers no fetch, leaves
the rate limiter's timestamp and request count untouched, leaves the whole
proxy pool (hence every entry's request count) untouched, and returns no
response; `requests_made` is not incremented either. -/
theorem C8_robots_denied_no_side_effects (cfg : ScrapingConfig)
    (parseDomain : String → String)
    (robotsFetch : String → Option RobotsParser)
    (fetch : String → Option String → FetchOutcome) (randIdx : Nat)
    (now : ℚ) (url : String) (st : ScraperState)
    (hdeny : (canFetchM cfg parseDomain robotsFetch url st.robotsCache).1
      = false) :
    (makeRequestSync cfg parseDomain robotsFetch fetch randIdx now url
      st).result = none ∧
    (makeRequestSync cfg parseDomain robotsFetch fetch randIdx now url
      st).state.rate = st.rate ∧
    (makeRequestSync cfg parseDomain robotsFetch fetch randIdx now url
      st).state.proxy = st.proxy ∧
    (makeRequestSync cfg parseDomain robotsFetch fetch randIdx now url
      st).fetchCalls = 0 ∧
    (makeRequestSync cfg parseDomain robotsFetch fetch randIdx now url
      st).state.requestsMade = st.requestsMade ∧
    (makeRequestSync cfg parseDomain robotsFetch fetch randIdx now url
      st).usedProxy = none := by
  simp [makeRequestSync, hdeny]

/-- Witness for C8: a domain whose cached parser denies everything makes
the request function return `None` with rate limiter and proxy pool
untouched. -/
theorem C8_robots_denied_no_side_effects_witness :
    (makeRequestSync ⟨1, none, true, true, 3⟩ (fun _ => "d") (fun _ => none)
      (fun _ _ => FetchOutcome.resp 200 "ok") 0 5 "u"
      ⟨⟨0, 0⟩, some ⟨["p"], 0, [("p", ⟨0, 0, 0, 0, true⟩)]⟩,
        [("d", some ⟨fun _ => false, none⟩)], 0, 0, 0⟩).result = none ∧
    (makeRequestSync ⟨1, none, true, true, 3⟩ (fun _ => "d") (fun _ => none)
      (fun _ _ => FetchOutcome.resp 200 "ok") 0 5 "u"
      ⟨⟨0, 0⟩, some ⟨["p"], 0, [("p", ⟨0, 0, 0, 0, true⟩)]⟩,
        [("d", some ⟨fun _ => false, none⟩)], 0, 0, 0⟩).state.rate = ⟨0, 0⟩ ∧
    (makeRequestSync ⟨1, none, true, true, 3⟩ (fun _ => "d") (fun _ => none)
      (fun _ _ => FetchOutcome.resp 200 "ok") 0 5 "u"
      ⟨⟨0, 0⟩, some ⟨["p"], 0, [("p", ⟨0, 0, 0, 0, true⟩)]⟩,
        [("d", some ⟨fun _ => false, none⟩)], 0, 0, 0⟩).state.proxy =
      some ⟨["p"], 0, [("p", ⟨0, 0, 0, 0, true⟩)]⟩ ∧
    (makeRequestSync ⟨1, none, true, true, 3⟩ (fun _ => "d") (fun _ => none)
      (fun _ _ => FetchOutcome.resp 200 "ok") 0 5 "u"
      ⟨⟨0, 0⟩, some ⟨["p"], 0, [("p", ⟨0, 0, 0, 0, true⟩)]⟩,
        [("d", some ⟨fun _ => false, none⟩)], 0, 0, 0⟩).fetchCalls = 0 := by
  have h := C8_robots_denied_no_side_effects ⟨1, none, true, true, 3⟩
    (fun _ => "d") (fun _ => none) (fun _ _ => FetchOutcome.resp 200 "ok")
    0 5 "u"
    ⟨⟨0, 0⟩, some ⟨["p"], 0, [("p", ⟨0, 0, 0, 0, true⟩)]⟩,
      [("d", some ⟨fun _ => false, none⟩)], 0, 0, 0⟩
    (by simp [canFetchM, getRobotsParser, List.lookup])
  exact ⟨h.1, h.2.1, h.2.2.1, h.2.2.2.1⟩

/-- Claim C5 (amended): `_make_request_sync` never feeds fetch outcomes
back into proxy health: `mark_proxy_failed` and `mark_proxy_success` are
not invoked on any path, so every pool entry's `failures` counter and
`response_time` are unchanged across a request, whatever the outcome
(transport error, non-2xx or success). -/
theorem C5_no_proxy_health_reporting (cfg : ScrapingConfig)
    (parseDomain : String → String)
    (robotsFetch : String → Option RobotsParser)
    (fetch : String → Option String → FetchOutcome) (randIdx : Nat)
    (now : ℚ) (url : String) (st : ScraperState) (p : String) :
    poolFailures (makeRequestSync cfg parseDomain robotsFetch fetch randIdx
      now url st).state.proxy p = poolFailures st.proxy p ∧
    poolResponseTime (makeRequestSync cfg parseDomain robotsFetch fetch
      randIdx now url st).state.proxy p = poolResponseTime st.proxy p := by
  by_cases h : (canFetchM cfg parseDomain robotsFetch url st.robotsCache).1
      = false
  · simp [makeRequestSync, h]
  · constructor
    · simp only [makeRequestSync, if_neg h]
      rcases hst : st.proxy with _ | pm
      · simp only [hst]
        split <;> simp [poolFailures]
      · simp only [hst]
        split <;>
          simp [poolFailures,
            getProxy_lookup_map _ _ _ _ _ ProxyEntry.failures (fun e => rfl)]
    · simp only [makeRequestSync, if_neg h]
      rcases hst : st.proxy with _ | pm
      · simp only [hst]
        split <;> simp [poolResponseTime]
      · simp only [hst]
        split <;>
          simp [poolResponseTime,
            getProxy_lookup_map _ _ _ _ _ ProxyEntry.responseTime
              (fun e => rfl)]

/-- Counterexample for C5: a fetch through pool proxy `"p"` raises a
transport error, yet the entry's `failures` counter stays 0 — the claimed
`report_failure` (which would make it 1) never happens. -/
theorem C5_no_proxy_health_reporting_counterexample :
    (makeRequestSync ⟨0, none, false, true, 3⟩ (fun _ => "d")
      (fun _ => none) (fun _ _ => FetchOutcome.exn) 0 0 "u"
      ⟨⟨0, 0⟩, some ⟨["p"], 0, [("p", ⟨0, 0, 0, 0, true⟩)]⟩, [], 0, 0,
        0⟩).usedProxy = some "p" ∧
    (makeRequestSync ⟨0, none, false, true, 3⟩ (fun _ => "d")
      (fun _ => none) (fun _ _ => FetchOutcome.exn) 0 0 "u"
      ⟨⟨0, 0⟩, some ⟨["p"], 0, [("p", ⟨0, 0, 0, 0, true⟩)]⟩, [], 0, 0,
        0⟩).result = none ∧
    poolFailures (makeRequestSync ⟨0, none, false, true, 3⟩ (fun _ => "d")
      (fun _ => none) (fun _ _ => FetchOutcome.exn) 0 0 "u"
      ⟨⟨0, 0⟩, some ⟨["p"], 0, [("p", ⟨0, 0, 0, 0, true⟩)]⟩, [], 0, 0,
        0⟩).state.proxy "p" = some (some 0) ∧
    ¬ poolFailures (makeRequestSync ⟨0, none, false, true, 3⟩
      (fun _ => "d") (fun _ => none) (fun _ _ => FetchOutcome.exn) 0 0 "u"
      ⟨⟨0, 0⟩, some ⟨["p"], 0, [("p", ⟨0, 0, 0, 0, true⟩)]⟩, [], 0, 0,
        0⟩).state.proxy "p" = some (some 1) := by
  norm_num [makeRequestSync, canFetchM, getRobotsParser, waitSync,
    minDelay, getProxy, updateStats, drawEntry, poolFailures,
    List.lookup_cons]

/-- Claim C7 (amended): the scraper core performs exactly one fetch call
per authorized request — `max_retries` is only forwarded to the HTTP
session adapter, not used in any retry loop here — so the rate gate is
consumed exactly once per call (one `request_count` increment), whatever
the outcome; non-2xx responses and robots denials are likewise never
retried. -/
theorem C7_single_fetch_attempt (cfg : ScrapingConfig)
    (parseDomain : String → String)
    (robotsFetch : String → Option RobotsParser)
    (fetch : String → Option String → FetchOutcome) (randIdx : Nat)
    (now : ℚ) (url : String) (st : ScraperState)
    (hallow : (canFetchM cfg parseDomain robotsFetch url st.robotsCache).1
      = true) :
    (makeRequestSync cfg parseDomain robotsFetch fetch randIdx now url
      st).fetchCalls = 1 ∧
    (makeRequestSync cfg parseDomain robotsFetch fetch randIdx now url
      st).state.rate.requestCount = st.rate.requestCount + 1 := by
  have h : ¬((canFetchM cfg parseDomain robotsFetch url st.robotsCache).1
      = false) := by simp [hallow]
  constructor <;>
    · simp only [makeRequestSync, if_neg h]
      split <;> simp [waitSync]

/-- Witness for C7: an authorized request that succeeds performs exactly
one fetch call and one rate-limiter tick. -/
theorem C7_single_fetch_attempt_witness :
    (makeRequestSync ⟨0, none, false, true, 3⟩ (fun _ => "d")
      (fun _ => none) (fun _ _ => FetchOutcome.resp 200 "ok") 0 0 "u"
      ⟨⟨0, 4⟩, none, [], 0, 0, 0⟩).fetchCalls = 1 ∧
    (makeRequestSync ⟨0, none, false, true, 3⟩ (fun _ => "d")
      (fun _ => none) (fun _ _ => FetchOutcome.resp 200 "ok") 0 0 "u"
      ⟨⟨0, 4⟩, none, [], 0, 0, 0⟩).state.rate.requestCount = 4 + 1 :=
  C7_single_fetch_attempt ⟨0, none, false, true, 3⟩ (fun _ => "d")
    (fun _ => none) (fun _ _ => FetchOutcome.resp 200 "ok") 0 0 "u"
    ⟨⟨0, 4⟩, none, [], 0, 0, 0⟩ rfl

/-- Counterexample for C7: a network-error fetch with `max_retries = 3`
still performs exactly one fetch call and fails — were the failure retried
(as the claim states), at least a second attempt would occur. -/
theorem C7_single_fetch_attempt_counterexample :
    (makeRequestSync ⟨0, none, false, true, 3⟩ (fun _ => "e")
      (fun _ => none) (fun _ _ => FetchOutcome.exn) 0 0 "v"
      ⟨⟨0, 0⟩, none, [], 0, 0, 0⟩).result = none ∧
    (⟨0, none, false, true, 3⟩ : ScrapingConfig).maxRetries = 3 ∧
    (makeRequestSync ⟨0, none, false, true, 3⟩ (fun _ => "e")
      (fun _ => none) (fun _ _ => FetchOutcome.exn) 0 0 "v"
      ⟨⟨0, 0⟩, none, [], 0, 0, 0⟩).fetchCalls = 1 ∧
    ¬(2 ≤ (makeRequestSync ⟨0, none, false, true, 3⟩ (fun _ => "e")
      (fun _ => none) (fun _ _ => FetchOutcome.exn) 0 0 "v"
      ⟨⟨0, 0⟩, none, [], 0, 0, 0⟩).fetchCalls) := by
  norm_num [makeRequestSync, canFetchM, getRobotsParser, waitSync,
    minDelay]

/-- Claim C4 (amended): the wait performed by the rate gate equals
`max(base_delay, configured_crawl_delay, 0) − elapsed` (0 when that is not
positive), where the delay raising `base_delay` is the global
`config.crawl_delay` — not the host's robots crawl-delay, which the rate
limiter never consults; consequently two consecutive dispatches are never
spaced closer than `max(base_delay, configured_crawl_delay)`
(= `minDelay`). -/
theorem C4_rate_gate_wait :
    (∀ (cfg : ScrapingConfig) (st : RateLimiterState) (now : ℚ),
        0 ≤ now - st.lastRequestTime →
        (waitSync cfg st now).1 =
          max (max (max cfg.baseDelay (cfg.crawlDelay.getD 0)) 0 -
            (now - st.lastRequestTime)) 0) ∧
    (∀ (cfg : ScrapingConfig) (st : RateLimiterState) (now1 now2 : ℚ),
        minDelay cfg ≤
          (waitSync cfg (waitSync cfg st now1).2 now2).2.lastRequestTime -
            (waitSync cfg st now1).2.lastRequestTime) := by
  constructor
  · intro cfg st now h
    have hM : max (max cfg.baseDelay (cfg.crawlDelay.getD 0)) 0 =
        max (minDelay cfg) 0 := by
      unfold minDelay
      rcases cfg.crawlDelay with _ | d
      · simp [max_assoc]
      · by_cases hd : d = 0
        · subst hd
          simp [max_assoc]
        · simp [hd]
    rw [hM, waitSync_fst]
    rcases le_total (minDelay cfg) 0 with hm | hm
    · rw [max_eq_right hm, if_neg (by linarith), max_eq_right (by linarith)]
    · rw [max_eq_left hm]
      by_cases hlt : now - st.lastRequestTime < minDelay cfg
      · rw [if_pos hlt, max_eq_left (by linarith)]
      · rw [if_neg hlt, max_eq_right (by linarith)]
  · intro cfg st now1 now2
    exact waitSync_spacing cfg (waitSync cfg st now1).2 now2

/-- Witness for C4: with `base_delay = 1`, no configured crawl delay and
elapsed 2, the wait is `max(max(max(1, 0), 0) − 2, 0)`; and a concrete
consecutive pair of calls is spaced at least `minDelay` apart. -/
theorem C4_rate_gate_wait_witness :
    (waitSync ⟨1, none, true, true, 3⟩ ⟨0, 0⟩ 2).1 =
      max (max (max (1 : ℚ) ((none : Option ℚ).getD 0)) 0 - (2 - 0)) 0 ∧
    minDelay ⟨1, none, true, true, 3⟩ ≤
      (waitSync ⟨1, none, true, true, 3⟩
        (waitSync ⟨1, none, true, true, 3⟩ ⟨0, 0⟩ 2).2
          3).2.lastRequestTime -
        (waitSync ⟨1, none, true, true, 3⟩ ⟨0, 0⟩ 2).2.lastRequestTime :=
  ⟨C4_rate_gate_wait.1 ⟨1, none, true, true, 3⟩ ⟨0, 0⟩ 2 (by norm_num),
   C4_rate_gate_wait.2 ⟨1, none, true, true, 3⟩ ⟨0, 0⟩ 2 3⟩

/-- Counterexample for C4: a host whose robots.txt declares a crawl delay
of 10 still gets a zero wait when `base_delay = 1` and 2 seconds have
elapsed — the claim's formula `max(base_delay, robots_crawl_delay, 0) −
elapsed` would demand a wait of 8; the rate limiter never reads the robots
crawl delay. -/
theorem C4_rate_gate_wait_counterexample :
    (makeRequestSync ⟨1, none, true, true, 3⟩ (fun _ => "d")
      (fun _ => none) (fun _ _ => FetchOutcome.resp 200 "ok") 0 2 "u"
      ⟨⟨0, 0⟩, none, [("d", some ⟨fun _ => true, some 10⟩)], 0, 0,
        0⟩).waitPerformed = 0 ∧
    (getCrawlDelayM ⟨1, none, true, true, 3⟩ (fun _ => "d")
      (fun _ => none) "u" [("d", some ⟨fun _ => true, some 10⟩)]).1 =
      some 10 ∧
    ¬((0 : ℚ) = max (max (1 : ℚ) 10) 0 - 2) := by
  refine ⟨?_, ?_, by norm_num⟩
  · norm_num [makeRequestSync, canFetchM, getRobotsParser, waitSync,
      minDelay, List.lookup_cons]
  · norm_num [getCrawlDelayM, getRobotsParser, List.lookup_cons]

/-- Claim C1 (amended): the batch scraper returns one result per URL whose
scrape produced a dict — failed URLs are filtered out of the returned list
(their count can be below N), while each failure is recorded in the
`errors` list; no URL's failure aborts the batch (every other URL still
contributes its slot). -/
theorem C1_batch_outcomes (md5 : String → String)
    (scrape : String → Option Record) (urls : List String) :
    ∀ st : WebScraperState,
      (scrapeMultipleUrls md5 scrape urls st).1.length =
        (urls.filter fun u => (scrape u).isSome).length ∧
      (scrapeMultipleUrls md5 scrape urls st).2.errors.length =
        st.errors.length +
          (urls.filter fun u => (scrape u).isNone).length := by
  induction urls with
  | nil => intro st; simp [scrapeMultipleUrls, gatherScrapes]
  | cons u rest ih =>
    intro st
    have hih := ih (scrapeSingleUrl md5 scrape u st).2
    simp only [scrapeMultipleUrls] at hih ⊢
    rw [gatherScrapes_cons]
    have hfst := scrapeSingleUrl_fst md5 scrape u st
    rcases hu : scrape u with _ | r
    · rw [hu] at hfst
      have herr := scrapeSingleUrl_errors_none md5 scrape u st hu
      constructor
      · rw [hfst]
        simp only [List.filterMap_cons, List.filter_cons, hu,
          Option.isSome_none, Bool.false_eq_true, if_false, id_eq]
        exact hih.1
      · rw [hih.2, herr]
        simp only [List.filter_cons, hu, Option.isNone_none, if_true,
          List.length_append, List.length_cons, List.length_nil]
        omega
    · rw [hu] at hfst
      have herr := scrapeSingleUrl_errors_some md5 scrape u st r hu
      constructor
      · rw [hfst]
        simp only [List.filterMap_cons, List.filter_cons, hu,
          Option.isSome_some, if_true, id_eq, List.length_cons]
        rw [hih.1]
      · rw [hih.2, herr]
        simp only [List.filter_cons, hu, Option.isNone_some,
          Bool.false_eq_true, if_false]

/-- Counterexample for C1: of two submitted URLs one fails, and the batch
returns a single outcome, not two — failure outcomes are not included in
the returned list. -/
theorem C1_batch_outcomes_counterexample :
    (scrapeMultipleUrls id
      (fun u => if u = "b" then some [("k", "v")] else none)
      ["a", "b"] ⟨[], [], ⟨[], 0⟩⟩).1.length = 1 ∧
    ¬((scrapeMultipleUrls id
      (fun u => if u = "b" then some [("k", "v")] else none)
      ["a", "b"] ⟨[], [], ⟨[], 0⟩⟩).1.length = 2) := by decide

/-- Claim C2 (amended): the pagination walk keeps no visited set; its only
cycle guard is `next_url != current_url`, so whenever a page's next link
resolves to that same page's URL — in particular a seed page linking back
to itself — the walk ends after that one page; longer cycles are not
detected (see the counterexample, which revisits the seed). -/
theorem C2_pagination_self_loop_guard (scrape : String → Bool)
    (nextOf : String → Option String) (mp : Option Nat) (seed : String)
    (fuel : Nat) (hs : scrape seed = true) (hn : nextOf seed = some seed)
    (hne : seed ≠ "") (hmp : mpCond mp 0 = true) (hf : 1 ≤ fuel) :
    scrapeWithPagination scrape nextOf mp seed fuel = some [seed] := by
  obtain ⟨f, rfl⟩ : ∃ f, fuel = f + 1 := ⟨fuel - 1, by omega⟩
  simp [scrapeWithPagination, paginateLoop, hs, hn, hne, hmp]

/-- Witness for C2: a seed page whose next link is the seed itself yields
exactly one page. -/
theorem C2_pagination_self_loop_guard_witness :
    scrapeWithPagination (fun _ => true) (fun _ => some "s") (some 5) "s" 3
      = some ["s"] :=
  C2_pagination_self_loop_guard (fun _ => true) (fun _ => some "s")
    (some 5) "s" 3 rfl rfl (by decide) (by decide) (by decide)

/-- Counterexample for C2: with next links `a → b → a` and a page budget
of 3, the walk scrapes `a` again — it revisits a URL it has already
visited, so there is no visited-set cycle guard. -/
theorem C2_pagination_self_loop_guard_counterexample :
    scrapeWithPagination (fun _ => true)
      (fun u => if u = "a" then some "b"
        else if u = "b" then some "a" else none)
      (some 3) "a" 5 = some ["a", "b", "a"] ∧
    ¬(["a", "b", "a"] : List String).Nodup := by decide

end Codeflex
